import Mathlib

/- Shallow embedding of the knowledge-graph persistence layer of the
   context-portal server (src/context_portal_mcp/db/).  SQLite tables are
   modelled as Lean lists of row structures, the SQL statements executed by
   the store functions as pure functions on those lists, and raised Python
   exceptions as `Except` errors.  Timestamps are modelled as naturals. -/

/-- JSON-like values stored in context content objects and custom-data
payloads (images of `json.loads`).  Scalar shapes suffice for the
properties below. -/
inductive JValue where
  | jnull : JValue
  | jbool : Bool → JValue
  | jnum : Int → JValue
  | jstr : String → JValue
deriving DecidableEq, Repr

/-- A Python `dict` with string keys, as an association list: keys are
unique and insertion order is preserved, as Python guarantees. -/
abbrev Dict := List (String × JValue)

/-- Python `d[k] = v`: overwrite the binding of `k` in place when present,
else append the new binding at the end. -/
def dictSet : Dict → String → JValue → Dict
  | [], k, v => [(k, v)]
  | p :: rest, k, v => if p.1 = k then (k, v) :: rest else p :: dictSet rest k v

/-- Python `d.pop(k, None)`: drop the binding of `k` when present. -/
def dictPop : Dict → String → Dict
  | [], _ => []
  | p :: rest, k => if p.1 = k then dictPop rest k else p :: dictPop rest k

/-- Python `d.get(k)`: the first binding of `k`, if any. -/
def dictGet : Dict → String → Option JValue
  | [], _ => none
  | p :: rest, k => if p.1 = k then some p.2 else dictGet rest k

/-- The keys bound by a dict. -/
def dictKeys (d : Dict) : List String := d.map (fun p => p.1)

/-- Keys of a Python dict are unique. -/
def dictWF (d : Dict) : Prop := (dictKeys d).Nodup

-- ---------------------------------------------------------------------------
-- Singleton contexts (db/_contexts.py)
-- ---------------------------------------------------------------------------

/-- The deletion sentinel recognised by context patch updates. -/
def deleteSentinel : JValue := JValue.jstr "__DELETE__"

/-- One row of `product_context_history` / `active_context_history`. -/
structure HistoryEntry where
  version : Nat
  content : Dict
  change_source : String
deriving DecidableEq, Repr

/-- State of one singleton context table paired with its history table;
`context = none` models the absent singleton row (uninitialised store). -/
structure ContextState where
  context : Option Dict
  history : List HistoryEntry
deriving DecidableEq, Repr

/-- Arguments of `update_product_context` / `update_active_context`
(`models.UpdateContextArgs`): full replacement content, or a shallow patch. -/
structure UpdateContextArgs where
  content : Option Dict
  patch_content : Option Dict
deriving DecidableEq, Repr

/-- Errors raised by the embedded store functions. -/
inductive DbError where
  | contextRowNotFound : DbError
  | noContentProvided : DbError
deriving DecidableEq, Repr

/-- Embeds `_get_latest_context_version`: `SELECT MAX(version)` over the history
table, defaulting to `0` when the table is empty. -/
def latestContextVersion (h : List HistoryEntry) : Nat :=
  (h.map (fun e => e.version)).foldl max 0

/-- The patch loop of the context update functions: a key whose patch value
equals `"__DELETE__"` is popped from the content, every other key is
assigned its patch value. -/
def applyPatch (cur patch : Dict) : Dict :=
  patch.foldl
    (fun acc kv => if kv.2 = deleteSentinel then dictPop acc kv.1 else dictSet acc kv.1 kv.2)
    cur

/-- Embeds `update_product_context` / `update_active_context` (identical bodies in
`db/_contexts.py`, differing only in table names and change-source label):
read the singleton row, raising `DatabaseError` when absent, before any
history write; compute the new content (full `content` takes precedence,
else apply `patch_content`, else raise); append the pre-update content to
the history table with version `MAX(version) + 1`; overwrite the singleton
row with the new content. -/
def updateContextTable (changeSource : String) (s : ContextState)
    (args : UpdateContextArgs) : Except DbError ContextState :=
  match s.context with
  | none => .error .contextRowNotFound
  | some cur =>
    let newContent? : Option Dict :=
      match args.content with
      | some full => some full
      | none =>
        match args.patch_content with
        | some patch => some (applyPatch cur patch)
        | none => none
    match newContent? with
    | none => .error .noContentProvided
    | some newContent =>
        .ok { context := some newContent
            , history := s.history ++
                [{ version := latestContextVersion s.history + 1
                 , content := cur
                 , change_source := changeSource }] }

/-- Embeds `update_product_context` over the product context tables. -/
def updateProductContext : ContextState → UpdateContextArgs → Except DbError ContextState :=
  updateContextTable "update_product_context"

/-- Embeds `update_active_context` over the active context tables. -/
def updateActiveContext : ContextState → UpdateContextArgs → Except DbError ContextState :=
  updateContextTable "update_active_context"

/-- Transaction semantics of one update call: on success the new state is
committed, on a raised error `conn.rollback()` restores the old state. -/
def runContextUpdate (changeSource : String) (s : ContextState)
    (args : UpdateContextArgs) : ContextState :=
  match updateContextTable changeSource s args with
  | .ok s2 => s2
  | .error _ => s

/-- A sequence of update calls that must all succeed. -/
def runContextUpdates (changeSource : String) :
    ContextState → List UpdateContextArgs → Except DbError ContextState
  | s, [] => .ok s
  | s, a :: rest =>
    match updateContextTable changeSource s a with
    | .ok s2 => runContextUpdates changeSource s2 rest
    | .error e => .error e

/-- The content written by one successful update, as a function of the
pre-update content (full replacement wins; otherwise the patch). -/
def stepContent (c : Dict) (a : UpdateContextArgs) : Dict :=
  match a.content with
  | some full => full
  | none =>
    match a.patch_content with
    | some patch => applyPatch c patch
    | none => c

-- ---------------------------------------------------------------------------
-- System patterns (db/_patterns.py) and custom data (db/_custom_data.py)
-- ---------------------------------------------------------------------------

/-- One row of the `system_patterns` table (name is `UNIQUE`); `tags` holds
the decoded image of the stored tags JSON text. -/
structure SystemPatternRow where
  id : Nat
  timestamp : Nat
  name : String
  description : Option String
  tags : Option (List String)
deriving DecidableEq, Repr

/-- The `system_patterns` table with its integer-primary-key allocator. -/
structure SystemPatternsTable where
  rows : List SystemPatternRow
  nextId : Nat
deriving DecidableEq, Repr

/-- Input of `log_system_pattern` (`models.SystemPattern` before an id is
assigned). -/
structure SystemPatternData where
  timestamp : Nat
  name : String
  description : Option String
  tags : Option (List String)
deriving DecidableEq, Repr

/-- Embeds `log_system_pattern`: the single atomic
`INSERT .. ON CONFLICT(name) DO UPDATE .. RETURNING id` statement.  On a
name collision the conflicting row keeps its id and receives the incoming
timestamp, description and tags; otherwise a fresh row is appended under a
fresh id.  Returns the new table and the id reported by `RETURNING`,
which the function stores into the returned entity. -/
def logSystemPattern (t : SystemPatternsTable) (p : SystemPatternData) :
    SystemPatternsTable × Nat :=
  match t.rows.find? (fun r => r.name = p.name) with
  | some r =>
      ({ rows := t.rows.map (fun r2 =>
            if r2.name = p.name then
              { r2 with timestamp := p.timestamp, description := p.description, tags := p.tags }
            else r2)
       , nextId := t.nextId }, r.id)
  | none =>
      ({ rows := t.rows ++
          [{ id := t.nextId, timestamp := p.timestamp, name := p.name
           , description := p.description, tags := p.tags }]
       , nextId := t.nextId + 1 }, t.nextId)

/-- One row of the `custom_data` table (`UNIQUE(category, key)`). -/
structure CustomDataRow where
  id : Nat
  timestamp : Nat
  category : String
  key : String
  value : JValue
deriving DecidableEq, Repr

/-- The `custom_data` table with its integer-primary-key allocator. -/
structure CustomDataTable where
  rows : List CustomDataRow
  nextId : Nat
deriving DecidableEq, Repr

/-- Input of `log_custom_data` (`models.CustomData` before an id is
assigned). -/
structure CustomDataInput where
  timestamp : Nat
  category : String
  key : String
  value : JValue
deriving DecidableEq, Repr

/-- Embeds `log_custom_data`: the single atomic
`INSERT .. ON CONFLICT(category, key) DO UPDATE .. RETURNING id`
statement: on a composite-key collision the conflicting row keeps its id
and receives the incoming timestamp and value; otherwise a fresh row is
appended under a fresh id. -/
def logCustomData (t : CustomDataTable) (c : CustomDataInput) :
    CustomDataTable × Nat :=
  match t.rows.find? (fun r => r.category = c.category ∧ r.key = c.key) with
  | some r =>
      ({ rows := t.rows.map (fun r2 =>
            if r2.category = c.category ∧ r2.key = c.key then
              { r2 with timestamp := c.timestamp, value := c.value }
            else r2)
       , nextId := t.nextId }, r.id)
  | none =>
      ({ rows := t.rows ++
          [{ id := t.nextId, timestamp := c.timestamp, category := c.category
           , key := c.key, value := c.value }]
       , nextId := t.nextId + 1 }, t.nextId)

-- ---------------------------------------------------------------------------
-- Context links (db/_links.py) and cascade triggers (db/templates.py)
-- ---------------------------------------------------------------------------

/-- One row of the `context_links` table; both item ids are stored as text
(`str(...)` is applied on insert). -/
structure ContextLinkRow where
  id : Nat
  timestamp : Nat
  workspace_id : String
  source_item_type : String
  source_item_id : String
  target_item_type : String
  target_item_id : String
  relationship_type : String
  description : Option String
deriving DecidableEq, Repr

/-- Stable insertion into a list sorted descending by a natural key
(`ORDER BY .. DESC`; ties keep earlier rows first). -/
def insertDescBy (key : α → Nat) (x : α) : List α → List α
  | [] => [x]
  | y :: ys => if key x ≤ key y then y :: insertDescBy key x ys else x :: y :: ys

/-- Sort a result set descending by a natural key. -/
def sortDescBy (key : α → Nat) (l : List α) : List α :=
  l.foldr (insertDescBy key) []

/-- Embeds `LIMIT ?`, added only when the caller's limit is positive. -/
def applyLimit : Option Int → List α → List α
  | some n, l => if n > 0 then l.take n.toNat else l
  | none, l => l

/-- Python `str.isdigit()` on the strings that occur here: non-empty and
all decimal digits. -/
def pyIsDigit (s : String) : Bool :=
  !s.data.isEmpty && s.data.all (fun c => c.isDigit)

/-- Decimal value of a digit string (`int(item_id)` after an `isdigit`
guard). -/
def pyNatOfDigits (s : String) : Nat :=
  s.data.foldl (fun a c => a * 10 + (c.toNat - 48)) 0

/-- Embeds `get_custom_data_by_id`: `SELECT .. FROM custom_data WHERE id = ?`. -/
def getCustomDataById (cd : List CustomDataRow) (n : Nat) : Option CustomDataRow :=
  cd.find? (fun r => r.id = n)

/-- The id probe of `get_context_links`: only for `custom_data` queries
whose item id is numeric, the row's `category:key` form is added as an
alternate search id when the row resolves. -/
def searchItemIds (cd : List CustomDataRow) (item_type item_id : String) : List String :=
  if item_type = "custom_data" ∧ pyIsDigit item_id then
    match getCustomDataById cd (pyNatOfDigits item_id) with
    | some r => [item_id, r.category ++ ":" ++ r.key]
    | none => [item_id]
  else [item_id]

/-- The link row mentions the given item as source or as target. -/
def linkMatchesItem (l : ContextLinkRow) (t i : String) : Bool :=
  (l.source_item_type = t ∧ l.source_item_id = i) ∨
  (l.target_item_type = t ∧ l.target_item_id = i)

/-- Python truthiness of an optional string filter argument
(`if some_filter:`). -/
def optStrFilter (f : Option String) (check : String → Bool) : Bool :=
  match f with
  | some v => if v = "" then true else check v
  | none => true

/-- Embeds `get_context_links`: selects the rows where the queried item appears
as source or target under any of the probed ids, in this workspace,
subject to the optional relationship-type and linked-item-type filters,
ordered by timestamp descending, optionally limited. -/
def getContextLinks (links : List ContextLinkRow) (cd : List CustomDataRow)
    (workspace_id item_type item_id : String)
    (relationship_type_filter linked_item_type_filter : Option String)
    (limit : Option Int) : List ContextLinkRow :=
  let ids := searchItemIds cd item_type item_id
  let cond := fun (l : ContextLinkRow) =>
    ids.any (fun i => linkMatchesItem l item_type i) &&
    (l.workspace_id = workspace_id : Bool) &&
    optStrFilter relationship_type_filter (fun rel => l.relationship_type = rel) &&
    optStrFilter linked_item_type_filter (fun lt =>
      (l.source_item_type = item_type ∧ l.source_item_id = item_id ∧ l.target_item_type = lt) ∨
      (l.target_item_type = item_type ∧ l.target_item_id = item_id ∧ l.source_item_type = lt))
  applyLimit limit (sortDescBy (fun l => l.timestamp) (links.filter cond))

/-- One row of the `progress_entries` table. -/
structure ProgressRow where
  id : Nat
  timestamp : Nat
  status : String
  description : String
  parent_id : Option Nat
deriving DecidableEq, Repr

/-- The per-workspace tables involved in entity deletion with link
cleanup. -/
structure WorkspaceDb where
  progress_entries : List ProgressRow
  system_patterns : List SystemPatternRow
  context_links : List ContextLinkRow
  custom_data : List CustomDataRow
deriving DecidableEq, Repr

/-- Decimal digit as a character. -/
def digitChar (d : Nat) : Char :=
  match d with
  | 0 => '0' | 1 => '1' | 2 => '2' | 3 => '3' | 4 => '4'
  | 5 => '5' | 6 => '6' | 7 => '7' | 8 => '8' | _ => '9'

def natToTextAux : Nat → Nat → List Char
  | 0, _ => []
  | fuel + 1, n => if n < 10 then [digitChar n] else natToTextAux fuel (n / 10) ++ [digitChar (n % 10)]

/-- Embeds `CAST(id AS TEXT)`: decimal representation of a row id. -/
def natToText (n : Nat) : String := ⟨natToTextAux (n + 1) n⟩

/-- Embeds `delete_progress_entry_by_id`: `DELETE FROM progress_entries WHERE
id = ?`, returning whether a row was deleted.  On an actual delete the
`ON DELETE SET NULL` foreign key nulls the children's `parent_id` (noted
in the function's docstring) and the `progress_entries_cascade_delete_links`
trigger (db/templates.py) removes every `context_links` row naming the
deleted entry, as source or target, under `CAST(old.id AS TEXT)`. -/
def deleteProgressEntryById (db : WorkspaceDb) (pid : Nat) : WorkspaceDb × Bool :=
  if db.progress_entries.any (fun r => r.id = pid) then
    ({ db with
        progress_entries := (db.progress_entries.filter (fun r => ¬ r.id = pid)).map
          (fun r => if r.parent_id = some pid then { r with parent_id := none } else r)
      , context_links := db.context_links.filter
          (fun l => ¬ linkMatchesItem l "progress_entry" (natToText pid) = true) }, true)
  else (db, false)

/-- Embeds `delete_system_pattern_by_id`: `DELETE FROM system_patterns WHERE
id = ?`; on an actual delete the `system_patterns_cascade_delete_links`
trigger (db/templates.py) removes every `context_links` row naming the
deleted pattern as source or target. -/
def deleteSystemPatternById (db : WorkspaceDb) (pid : Nat) : WorkspaceDb × Bool :=
  if db.system_patterns.any (fun r => r.id = pid) then
    ({ db with
        system_patterns := db.system_patterns.filter (fun r => ¬ r.id = pid)
      , context_links := db.context_links.filter
          (fun l => ¬ linkMatchesItem l "system_pattern" (natToText pid) = true) }, true)
  else (db, false)

-- ---------------------------------------------------------------------------
-- Decisions (db/_decisions.py), get_system_patterns, tool-layer validation
-- ---------------------------------------------------------------------------

/-- One row of the `decisions` table; `tags` holds the decoded image of the
stored tags text (`_parse_tags_safely`). -/
structure DecisionRow where
  id : Nat
  timestamp : Nat
  summary : String
  rationale : Option String
  implementation_details : Option String
  tags : Option (List String)
deriving DecidableEq, Repr

/-- Python truthiness of an optional list (`None` and `[]` are falsy). -/
def optListTruthy : Option (List String) → Bool
  | some (_ :: _) => true
  | _ => false

/-- Embeds `d.tags and all(tag in d.tags for tag in tags_filter_include_all)`. -/
def containsAllTags (tags : Option (List String)) (req : List String) : Bool :=
  optListTruthy tags && req.all (fun t => (tags.getD []).contains t)

/-- Embeds `d.tags and any(tag in d.tags for tag in tags_filter_include_any)`. -/
def containsAnyTags (tags : Option (List String)) (req : List String) : Bool :=
  optListTruthy tags && req.any (fun t => (tags.getD []).contains t)

/-- Embeds `get_decisions`: `SELECT .. ORDER BY timestamp DESC` with the SQL
`LIMIT` added when positive, followed by the Python-side tag filters, each
applied only when its argument is truthy — the include-all filter first,
then the include-any filter over its result. -/
def getDecisions (rows : List DecisionRow) (limit : Option Int)
    (tags_filter_include_all tags_filter_include_any : Option (List String)) :
    List DecisionRow :=
  let limited := applyLimit limit (sortDescBy (fun r => r.timestamp) rows)
  let ds1 :=
    match tags_filter_include_all with
    | some (t :: ts) => limited.filter (fun d => containsAllTags d.tags (t :: ts))
    | _ => limited
  match tags_filter_include_any with
  | some (t :: ts) => ds1.filter (fun d => containsAnyTags d.tags (t :: ts))
  | _ => ds1

/-- Stable insertion into a list sorted ascending by a string key
(`ORDER BY name ASC`). -/
def insertAscBy (key : α → String) (x : α) : List α → List α
  | [] => [x]
  | y :: ys => if key y ≤ key x then y :: insertAscBy key x ys else x :: y :: ys

/-- Sort a result set ascending by a string key. -/
def sortAscBy (key : α → String) (l : List α) : List α :=
  l.foldr (insertAscBy key) []

/-- Embeds `get_system_patterns`: `SELECT .. ORDER BY name ASC` (no SQL limit),
followed by the same Python-side tag filters as `get_decisions`. -/
def getSystemPatterns (rows : List SystemPatternRow)
    (tags_filter_include_all tags_filter_include_any : Option (List String)) :
    List SystemPatternRow :=
  let ordered := sortAscBy (fun r => r.name) rows
  let ps1 :=
    match tags_filter_include_all with
    | some (t :: ts) => ordered.filter (fun p => containsAllTags p.tags (t :: ts))
    | _ => ordered
  match tags_filter_include_any with
  | some (t :: ts) => ps1.filter (fun p => containsAnyTags p.tags (t :: ts))
  | _ => ps1

/-- Error raised at the tool boundary for invalid caller arguments. -/
inductive PortalError where
  | validationError : PortalError
deriving DecidableEq, Repr

/-- Modelled from the spec: the Pydantic argument models (models.py, which
is not under src/) reject supplying both tag filters before any handler or
storage code runs — main.py notes at the call sites that "The model's own
validator will check tag filter exclusivity", and the spec states that a
get call with both includeAll and includeAny set raises `ValidationError`
before touching storage.  Python truthiness: the filters conflict when
both are non-None and non-empty. -/
def validateTagFilterExclusivity (includeAll includeAny : Option (List String)) :
    Except PortalError Unit :=
  if optListTruthy includeAll && optListTruthy includeAny then
    .error .validationError
  else
    .ok ()

/-- Arguments of the `get_decisions` tool call (`models.GetDecisionsArgs`). -/
structure GetDecisionsArgs where
  limit : Option Int
  tags_filter_include_all : Option (List String)
  tags_filter_include_any : Option (List String)
deriving DecidableEq, Repr

/-- Arguments of the `get_system_patterns` tool call
(`models.GetSystemPatternsArgs`). -/
structure GetSystemPatternsArgs where
  tags_filter_include_all : Option (List String)
  tags_filter_include_any : Option (List String)
deriving DecidableEq, Repr

/-- The `get_decisions` tool call: argument validation first, storage
access only afterwards. -/
def toolGetDecisions (rows : List DecisionRow) (args : GetDecisionsArgs) :
    Except PortalError (List DecisionRow) :=
  match validateTagFilterExclusivity args.tags_filter_include_all args.tags_filter_include_any with
  | .error e => .error e
  | .ok _ => .ok (getDecisions rows args.limit
      args.tags_filter_include_all args.tags_filter_include_any)

/-- The `get_system_patterns` tool call: argument validation first,
storage access only afterwards. -/
def toolGetSystemPatterns (rows : List SystemPatternRow) (args : GetSystemPatternsArgs) :
    Except PortalError (List SystemPatternRow) :=
  match validateTagFilterExclusivity args.tags_filter_include_all args.tags_filter_include_any with
  | .error e => .error e
  | .ok _ => .ok (getSystemPatterns rows
      args.tags_filter_include_all args.tags_filter_include_any)

-- ---------------------------------------------------------------------------
-- Bulk reference resolution (db/_reports.py, get_items_by_references)
-- ---------------------------------------------------------------------------

/-- A `(type, id)` reference to an item (`models.ItemReference`; the id is
handled as text). -/
structure ItemReference where
  type : String
  id : String
deriving DecidableEq, Repr

/-- Python `str.lower()`. -/
def lowerStr (s : String) : String := ⟨s.data.map Char.toLower⟩

/-- Decimal value of a digit character list. -/
def decDigitsToNat (cs : List Char) : Nat :=
  cs.foldl (fun a c => a * 10 + (c.toNat - 48)) 0

/-- Python `int(s)` on the ids appearing here: an optional minus sign
followed by decimal digits; anything else raises `ValueError`. -/
def pyParseInt (s : String) : Option Int :=
  match s.data with
  | '-' :: rest =>
      if !rest.isEmpty && rest.all (fun c => c.isDigit) then
        some (-(Int.ofNat (decDigitsToNat rest)))
      else none
  | cs =>
      if !cs.isEmpty && cs.all (fun c => c.isDigit) then
        some (Int.ofNat (decDigitsToNat cs))
      else none

/-- Split a character list at the first occurrence of a separator
(Python `s.split(sep, 1)` when `sep in s`). -/
def splitFirstChars (sep : List Char) : List Char → Option (List Char × List Char)
  | [] => none
  | c :: rest =>
    if sep.isPrefixOf (c :: rest) then some ([], (c :: rest).drop sep.length)
    else
      match splitFirstChars sep rest with
      | some (pre, post) => some (c :: pre, post)
      | none => none

/-- Python `s.split(sep, 1)` guarded by `sep in s`. -/
def pySplitFirst (s sep : String) : Option (String × String) :=
  match splitFirstChars sep.data s.data with
  | some (pre, post) => some (⟨pre⟩, ⟨post⟩)
  | none => none

/-- The state over which `get_items_by_references` resolves. -/
structure ReportsDb where
  decisions : List DecisionRow
  progress_entries : List ProgressRow
  system_patterns : List SystemPatternRow
  custom_data : List CustomDataRow
  product_context : Option Dict
  active_context : Option Dict
deriving DecidableEq, Repr

/-- A resolved entity payload (`model_dump` of the matching model). -/
inductive ItemPayload where
  | decisionItem : DecisionRow → ItemPayload
  | progressItem : ProgressRow → ItemPayload
  | patternItem : SystemPatternRow → ItemPayload
  | customDataItem : CustomDataRow → ItemPayload
  | productContextItem : Dict → ItemPayload
  | activeContextItem : Dict → ItemPayload
deriving DecidableEq, Repr

/-- Embeds `_retrieve_custom_data_item`: numeric id lookup first; else a
`category::key` or `category/key` split (first separator only, both parts
must be non-empty), newest row first; else a key-only lookup, newest row
first. -/
def retrieveCustomDataItem (cd : List CustomDataRow) (item_id : String) :
    Option ItemPayload :=
  if pyIsDigit item_id then
    (cd.find? (fun r => r.id = pyNatOfDigits item_id)).map .customDataItem
  else
    let catkey :=
      match pySplitFirst item_id "::" with
      | some p => some p
      | none => pySplitFirst item_id "/"
    match catkey with
    | some (cat, key2) =>
      if cat ≠ "" ∧ key2 ≠ "" then
        ((sortDescBy (fun r => r.timestamp)
          (cd.filter (fun r => r.category = cat ∧ r.key = key2))).head?).map .customDataItem
      else
        ((sortDescBy (fun r => r.timestamp)
          (cd.filter (fun r => r.key = item_id))).head?).map .customDataItem
    | none =>
        ((sortDescBy (fun r => r.timestamp)
          (cd.filter (fun r => r.key = item_id))).head?).map .customDataItem

/-- Embeds `_retrieve_single_item`: dispatch on the lower-cased type; numeric
types parse their id with `int(..)` (a parse failure raises `ValueError`);
an unsupported type raises `ValueError`; a missing row is `none`. -/
def retrieveSingleItem (db : ReportsDb) (item_type item_id : String) :
    Except String (Option ItemPayload) :=
  let t := lowerStr item_type
  if t = "decision" then
    match pyParseInt item_id with
    | none => .error "invalid literal for int()"
    | some n => .ok ((db.decisions.find? (fun r => (r.id : Int) = n)).map .decisionItem)
  else if t = "progress_entry" then
    match pyParseInt item_id with
    | none => .error "invalid literal for int()"
    | some n => .ok ((db.progress_entries.find? (fun r => (r.id : Int) = n)).map .progressItem)
  else if t = "system_pattern" then
    match pyParseInt item_id with
    | none => .error "invalid literal for int()"
    | some n => .ok ((db.system_patterns.find? (fun r => (r.id : Int) = n)).map .patternItem)
  else if t = "custom_data" then
    .ok (retrieveCustomDataItem db.custom_data item_id)
  else if t = "product_context" then
    .ok (db.product_context.map .productContextItem)
  else if t = "active_context" then
    .ok (db.active_context.map .activeContextItem)
  else
    .error ("Unsupported item type: " ++ item_type)

/-- Python `str.title()` restricted to one pass: the first letter of each
alphabetic run is upper-cased, the rest lower-cased. -/
def pyTitleAux : Bool → List Char → List Char
  | _, [] => []
  | prevAlpha, c :: rest =>
    (if c.isAlpha then (if prevAlpha then c.toLower else c.toUpper) else c) ::
      pyTitleAux c.isAlpha rest

/-- Embeds `_format_not_found_error`:
`item_type.replace("_", " ").title() + " with ID " + id + " not found"`. -/
def formatNotFoundError (item_type item_id : String) : String :=
  (⟨pyTitleAux false ((item_type.data.map (fun c => if c = '_' then ' ' else c)))⟩ : String) ++
    " with ID " ++ item_id ++ " not found"

/-- Per-reference result entry of `get_items_by_references`. -/
structure ItemResult where
  reference : ItemReference
  success : Bool
  item : Option ItemPayload
  error : Option String
deriving DecidableEq, Repr

/-- The loop body of `get_items_by_references` for one reference: a found
item yields a success entry carrying the payload; a missing item yields a
not-found failure entry; a raised retrieval error is caught and yields a
failure entry with the exception text. -/
def mkItemResult (db : ReportsDb) (ref : ItemReference) : ItemResult :=
  match retrieveSingleItem db ref.type ref.id with
  | .ok (some payload) =>
      { reference := ref, success := true, item := some payload, error := none }
  | .ok none =>
      { reference := ref, success := false, item := none
      , error := some (formatNotFoundError ref.type ref.id) }
  | .error e =>
      { reference := ref, success := false, item := none
      , error := some ("Database error retrieving " ++ ref.type ++ " ID " ++ ref.id ++ ": " ++ e) }

/-- Deduplication key of a reference: `(ref.type.lower(), str(ref.id))`. -/
def refKey (r : ItemReference) : String × String := (lowerStr r.type, r.id)

/-- The resolution loop with its seen-set deduplication. -/
def processReferences (db : ReportsDb) : List ItemReference → List (String × String) → List ItemResult
  | [], _ => []
  | r :: rest, seen =>
    if refKey r ∈ seen then processReferences db rest seen
    else mkItemResult db r :: processReferences db rest (refKey r :: seen)

/-- Embeds `_extract_references_from_links`: both endpoints of every link, in
order, deduplicated by key; endpoint fields must be truthy (non-empty). -/
def extractReferencesFromLinks (links : List ContextLinkRow) : List ItemReference :=
  go links []
where
  go : List ContextLinkRow → List (String × String) → List ItemReference
    | [], _ => []
    | l :: rest, seen =>
      let srcKey := (lowerStr l.source_item_type, l.source_item_id)
      let tgtKey := (lowerStr l.target_item_type, l.target_item_id)
      if l.source_item_type ≠ "" ∧ l.source_item_id ≠ "" ∧ ¬ srcKey ∈ seen then
        ⟨l.source_item_type, l.source_item_id⟩ ::
          (if l.target_item_type ≠ "" ∧ l.target_item_id ≠ "" ∧ ¬ tgtKey ∈ (srcKey :: seen) then
            ⟨l.target_item_type, l.target_item_id⟩ :: go rest (tgtKey :: srcKey :: seen)
          else go rest (srcKey :: seen))
      else
        if l.target_item_type ≠ "" ∧ l.target_item_id ≠ "" ∧ ¬ tgtKey ∈ seen then
          ⟨l.target_item_type, l.target_item_id⟩ :: go rest (tgtKey :: seen)
        else go rest seen

/-- Embeds `get_items_by_references`: exactly one input mode must be supplied
(`(references is None) == (linked_items_result is None)` raises
`ValueError`); in linked-items mode the references are first extracted
from the links; each reference then resolves independently through the
loop. -/
def getItemsByReferences (db : ReportsDb) (references : Option (List ItemReference))
    (linked_items_result : Option (List ContextLinkRow)) :
    Except String (List ItemResult) :=
  if references.isNone = linked_items_result.isNone then
    .error "Provide either references or linked_items_result, not both or neither"
  else
    let refs :=
      match linked_items_result with
      | some links => extractReferencesFromLinks links
      | none => references.getD []
    .ok (processReferences db refs [])

-- ---------------------------------------------------------------------------
-- Theorems
-- ---------------------------------------------------------------------------

theorem dictGet_dictSet (d : Dict) (k : String) (v : JValue) (k' : String) :
    dictGet (dictSet d k v) k' = if k' = k then some v else dictGet d k' := by
  induction d with
  | nil =>
    by_cases hk : k' = k
    · simp [dictSet, dictGet, hk]
    · have hkk : ¬ k = k' := fun h => hk h.symm
      simp [dictSet, dictGet, hk, hkk]
  | cons p rest ih =>
    by_cases hp : p.1 = k
    · by_cases hk : k' = k
      · simp [dictSet, dictGet, hp, hk]
      · have hne : ¬ p.1 = k' := fun h => hk (by rw [← h, hp])
        have hkk : ¬ k = k' := fun h => hk h.symm
        simp [dictSet, dictGet, hp, hk, hne, hkk]
    · by_cases hpk : p.1 = k'
      · have hk : ¬ k' = k := fun h => hp (by rw [hpk, h])
        simp [dictSet, dictGet, hp, hpk, hk]
      · simp [dictSet, dictGet, hp, hpk, ih]

theorem dictGet_dictPop (d : Dict) (k k' : String) :
    dictGet (dictPop d k) k' = if k' = k then none else dictGet d k' := by
  induction d with
  | nil => simp [dictPop, dictGet]
  | cons p rest ih =>
    by_cases hp : p.1 = k
    · by_cases hk : k' = k
      · subst hk
        simp [dictPop, dictGet, hp, ih]
      · have hne : ¬ p.1 = k' := fun h => hk (by rw [← h, hp])
        have hkk : ¬ k = k' := fun h => hk h.symm
        simp [dictPop, dictGet, hp, hk, hne, hkk, ih]
    · by_cases hpk : p.1 = k'
      · have hk : ¬ k' = k := fun h => hp (by rw [hpk, h])
        simp [dictPop, dictGet, hp, hpk, hk, ih]
      · simp [dictPop, dictGet, hp, hpk, ih]

theorem dictGet_eq_none_iff (d : Dict) (k : String) :
    dictGet d k = none ↔ ¬ k ∈ dictKeys d := by
  induction d with
  | nil => simp [dictGet, dictKeys]
  | cons p rest ih =>
    by_cases hp : p.1 = k
    · simp [dictGet, dictKeys, hp]
    · simp only [dictGet, dictKeys, List.map_cons, List.mem_cons, if_neg hp]
      rw [ih]
      unfold dictKeys
      constructor
      · intro h hor
        rcases hor with h1 | h2
        · exact hp h1.symm
        · exact h h2
      · intro h hmem
        exact h (Or.inr hmem)

theorem range1_succ_right (s n : Nat) :
    List.range' s (n + 1) = List.range' s n ++ [s + n] := by
  induction n generalizing s with
  | zero => simp [List.range']
  | succ m ih =>
    have h1 : List.range' s (m + 2) = s :: List.range' (s + 1) (m + 1) := rfl
    have h2 : List.range' s (m + 1) = s :: List.range' (s + 1) m := rfl
    rw [h1, ih (s + 1), h2]
    simp [List.cons_append]
    omega

theorem foldl_max_range1 (n : Nat) :
    (List.range' 1 n).foldl max 0 = n := by
  induction n with
  | zero => simp [List.range']
  | succ m ih =>
    rw [range1_succ_right, List.foldl_append, ih]
    simp
    omega

/-- When the history versions are exactly `1..n`, the recorded maximum
version is `n`. -/
theorem latestContextVersion_of_range (h : List HistoryEntry)
    (hv : h.map (fun e => e.version) = List.range' 1 h.length) :
    latestContextVersion h = h.length := by
  unfold latestContextVersion
  rw [hv, foldl_max_range1]

theorem updateContextTable_ok_shape (changeSource : String) (s : ContextState)
    (a : UpdateContextArgs) (c : Dict) (s2 : ContextState)
    (hc : s.context = some c)
    (h : updateContextTable changeSource s a = .ok s2) :
    s2.context = some (stepContent c a) ∧
    s2.history = s.history ++
      [{ version := latestContextVersion s.history + 1
       , content := c, change_source := changeSource }] := by
  unfold updateContextTable at h
  rw [hc] at h
  cases ha : a.content with
  | some full =>
    simp only [ha] at h
    cases h
    exact ⟨by simp [stepContent, ha], rfl⟩
  | none =>
    cases hb : a.patch_content with
    | some patch =>
      simp only [ha, hb] at h
      cases h
      exact ⟨by simp [stepContent, ha, hb], rfl⟩
    | none =>
      simp only [ha, hb] at h
      cases h

theorem runContextUpdates_ok_characterization (changeSource : String)
    (args : List UpdateContextArgs) :
    ∀ (s s' : ContextState) (c : Dict),
      s.context = some c →
      s.history.map (fun e => e.version) = List.range' 1 s.history.length →
      runContextUpdates changeSource s args = .ok s' →
      s'.context = some (args.foldl stepContent c) ∧
      s'.history = s.history ++ (List.range args.length).map
        (fun k => { version := s.history.length + 1 + k
                  , content := (args.take k).foldl stepContent c
                  , change_source := changeSource }) := by
  induction args with
  | nil =>
    intro s s' c hc _ hrun
    unfold runContextUpdates at hrun
    cases hrun
    exact ⟨hc, by simp⟩
  | cons a rest ih =>
    intro s s' c hc hv hrun
    unfold runContextUpdates at hrun
    cases hstep : updateContextTable changeSource s a with
    | error e => rw [hstep] at hrun; cases hrun
    | ok s2 =>
      rw [hstep] at hrun
      obtain ⟨hc2, hh2⟩ := updateContextTable_ok_shape changeSource s a c s2 hc hstep
      have hlatest : latestContextVersion s.history = s.history.length :=
        latestContextVersion_of_range s.history hv
      rw [hlatest] at hh2
      have hlen2 : s2.history.length = s.history.length + 1 := by
        rw [hh2]; simp
      have hv2 : s2.history.map (fun e => e.version) = List.range' 1 s2.history.length := by
        rw [hh2, List.map_append, hv]
        simp only [List.map_cons, List.map_nil, List.length_append, List.length_cons,
          List.length_nil, Nat.add_zero]
        rw [range1_succ_right]
        simp [Nat.add_comm]
      obtain ⟨hcf, hhf⟩ := ih s2 s' (stepContent c a) hc2 hv2 hrun
      constructor
      · rw [hcf]; simp
      · rw [hhf, hh2]
        simp only [List.length_append, List.length_cons, List.length_nil, Nat.add_zero]
        rw [List.range_succ_eq_map, List.map_cons, List.map_map]
        have hfun :
            ((fun k => ({ version := s.history.length + 1 + k
                        , content := ((a :: rest).take k).foldl stepContent c
                        , change_source := changeSource } : HistoryEntry)) ∘ Nat.succ) =
            (fun k => ({ version := s.history.length + 1 + 1 + k
                       , content := (rest.take k).foldl stepContent (stepContent c a)
                       , change_source := changeSource } : HistoryEntry)) := by
          funext k
          simp only [Function.comp, List.take_succ_cons, List.foldl_cons]
          congr 1
          omega
        rw [hfun]
        simp [List.append_assoc]

theorem applyPatch_get (patch : Dict) :
    ∀ (cur : Dict) (k : String), dictWF patch →
      dictGet (applyPatch cur patch) k =
        (match dictGet patch k with
          | some v => if v = deleteSentinel then none else some v
          | none => dictGet cur k) := by
  induction patch with
  | nil =>
    intro cur k _
    simp [applyPatch, dictGet]
  | cons p rest ih =>
    intro cur k hwf
    have hwf' : dictWF rest := by
      simpa [dictWF, dictKeys] using (List.nodup_cons.mp hwf).2
    have hnotin : ¬ p.1 ∈ dictKeys rest := by
      simpa [dictWF, dictKeys] using (List.nodup_cons.mp hwf).1
    have hstep : applyPatch cur (p :: rest) =
        applyPatch (if p.2 = deleteSentinel then dictPop cur p.1 else dictSet cur p.1 p.2) rest := rfl
    rw [hstep, ih _ k hwf']
    by_cases hpk : p.1 = k
    · have hrest : dictGet rest k = none := by
        rw [dictGet_eq_none_iff, ← hpk]
        exact hnotin
      rw [hrest]
      by_cases hsent : p.2 = deleteSentinel
      · simp [hsent, dictGet_dictPop, dictGet, hpk]
      · simp [hsent, dictGet_dictSet, dictGet, hpk]
    · have hg : dictGet (p :: rest) k = dictGet rest k := by simp [dictGet, hpk]
      rw [hg]
      cases hr : dictGet rest k with
      | some v => rfl
      | none =>
        by_cases hsent : p.2 = deleteSentinel
        · have hkp : ¬ k = p.1 := fun hh => hpk hh.symm
          simp [hsent, dictGet_dictPop, hkp]
        · have hkp : ¬ k = p.1 := fun hh => hpk hh.symm
          simp [hsent, dictGet_dictSet, hkp]

/-- Claim C2: starting from an empty history table with the singleton row
present, `N` sequential successful update calls (product or active context)
leave exactly `N` history entries with strictly increasing version numbers
`1..N`, the entry of version `k` holding exactly the content that was
current immediately before the `k`-th update. -/
theorem contextHistoryAfterUpdates (changeSource : String) (c0 : Dict)
    (args : List UpdateContextArgs) (s' : ContextState)
    (h : runContextUpdates changeSource { context := some c0, history := [] } args = .ok s') :
    s'.history.length = args.length ∧
    s'.history.map (fun e => e.version) = List.range' 1 args.length ∧
    s'.history = (List.range args.length).map
      (fun k => { version := k + 1
                , content := (args.take k).foldl stepContent c0
                , change_source := changeSource }) := by
  obtain ⟨_, hh⟩ :=
    runContextUpdates_ok_characterization changeSource args
      { context := some c0, history := [] } s' c0 rfl (by simp) h
  have hfun :
      (fun k => ({ version := ({ context := some c0, history := [] } : ContextState).history.length + 1 + k
                 , content := (args.take k).foldl stepContent c0
                 , change_source := changeSource } : HistoryEntry)) =
      (fun k => ({ version := k + 1
                 , content := (args.take k).foldl stepContent c0
                 , change_source := changeSource } : HistoryEntry)) := by
    funext k
    congr 1
    simp
    omega
  rw [hfun] at hh
  simp only [List.nil_append] at hh
  refine ⟨by rw [hh]; simp, ?_, hh⟩
  rw [hh, List.map_map]
  have hcomp :
      ((fun e => e.version) ∘
        (fun k => HistoryEntry.mk (k + 1) ((args.take k).foldl stepContent c0) changeSource)) =
      (fun k => 1 + k) := by
    funext k
    simp [Nat.add_comm]
  rw [hcomp, List.range'_eq_map_range]

/-- Witness for Claim C2 at two concrete updates of the product context. -/
theorem contextHistoryAfterUpdates_witness :
    runContextUpdates "update_product_context" { context := some [], history := [] }
        [{ content := some [("a", JValue.jnum 1)], patch_content := none }
        , { content := none, patch_content := some [("a", JValue.jstr "__DELETE__")] }] =
      .ok { context := some []
          , history :=
              [{ version := 1, content := [], change_source := "update_product_context" }
              , { version := 2, content := [("a", JValue.jnum 1)]
                , change_source := "update_product_context" }] } ∧
    ({ context := some []
     , history :=
         [{ version := 1, content := [], change_source := "update_product_context" }
         , { version := 2, content := [("a", JValue.jnum 1)]
           , change_source := "update_product_context" }] } : ContextState).history.map
        (fun e => e.version) = List.range' 1 2 :=
  ⟨by rfl, (contextHistoryAfterUpdates "update_product_context" []
      [{ content := some [("a", JValue.jnum 1)], patch_content := none }
      , { content := none, patch_content := some [("a", JValue.jstr "__DELETE__")] }]
      _ (by rfl)).2.1⟩

/-- Claim C3: in patch mode, a patch key valued with the deletion sentinel
is absent from the resulting content, every other patch key takes the
patch's value, and keys not mentioned in the patch keep their current
value; in particular patching focus-delete onto a two-key active context
content removes exactly the focus key and logs the old content to history. -/
theorem patchUpdateSemantics (cur patch : Dict) (k : String) (hwf : dictWF patch) :
    dictGet (applyPatch cur patch) k =
      (match dictGet patch k with
        | some v => if v = deleteSentinel then none else some v
        | none => dictGet cur k) ∧
    updateActiveContext
        { context := some [("focus", JValue.jstr "auth"), ("phase", JValue.jnum 2)]
        , history := [] }
        { content := none, patch_content := some [("focus", JValue.jstr "__DELETE__")] } =
      .ok { context := some [("phase", JValue.jnum 2)]
          , history := [{ version := 1
                        , content := [("focus", JValue.jstr "auth"), ("phase", JValue.jnum 2)]
                        , change_source := "update_active_context" }] } :=
  ⟨applyPatch_get patch cur k hwf, by rfl⟩

/-- Witness for Claim C3 at the spec's concrete scenario. -/
theorem patchUpdateSemantics_witness :
    dictWF [("focus", JValue.jstr "__DELETE__")] ∧
    dictGet (applyPatch [("focus", JValue.jstr "auth"), ("phase", JValue.jnum 2)]
        [("focus", JValue.jstr "__DELETE__")]) "focus" = none :=
  ⟨by simp [dictWF, dictKeys]
  , by
      have h := (patchUpdateSemantics
        [("focus", JValue.jstr "auth"), ("phase", JValue.jnum 2)]
        [("focus", JValue.jstr "__DELETE__")] "focus"
        (by simp [dictWF, dictKeys])).1
      rw [h]
      rfl⟩

/-- Claim C4: a singleton-context update against a store whose singleton
row is absent raises the storage error and leaves both the context table
and the history table untouched. -/
theorem updateWithoutRowFails (changeSource : String) (s : ContextState)
    (args : UpdateContextArgs) (h : s.context = none) :
    updateContextTable changeSource s args = .error DbError.contextRowNotFound ∧
    runContextUpdate changeSource s args = s := by
  have h1 : updateContextTable changeSource s args = .error .contextRowNotFound := by
    unfold updateContextTable
    rw [h]
  refine ⟨h1, ?_⟩
  unfold runContextUpdate
  rw [h1]

/-- Witness for Claim C4 on an uninitialised product context store. -/
theorem updateWithoutRowFails_witness :
    updateProductContext { context := none, history := [] }
        { content := some [], patch_content := none } = .error DbError.contextRowNotFound ∧
    runContextUpdate "update_product_context" { context := none, history := [] }
        { content := some [], patch_content := none } = { context := none, history := [] } :=
  updateWithoutRowFails "update_product_context"
    { context := none, history := [] } { content := some [], patch_content := none } rfl

/-- Claim C1: `log_system_pattern` and `log_custom_data` upsert by natural
key: on a key collision the existing row is updated in place — the
returned id is the existing row's id, the list of row ids is unchanged —
while a fresh key appends a new row; logging the same pattern name twice
yields the same id both times, the second call's tags and description
replacing the first's. -/
theorem naturalKeyUpsertPreservesId :
    (∀ (t : SystemPatternsTable) (p : SystemPatternData) (r : SystemPatternRow),
      t.rows.find? (fun r2 => r2.name = p.name) = some r →
        (logSystemPattern t p).2 = r.id ∧
        (logSystemPattern t p).1.rows.map (fun r2 => r2.id) = t.rows.map (fun r2 => r2.id) ∧
        (logSystemPattern t p).1.rows =
          t.rows.map (fun r2 => if r2.name = p.name then
            { r2 with timestamp := p.timestamp, description := p.description, tags := p.tags }
            else r2)) ∧
    (∀ (t : SystemPatternsTable) (p : SystemPatternData),
      t.rows.find? (fun r2 => r2.name = p.name) = none →
        (logSystemPattern t p).2 = t.nextId ∧
        (logSystemPattern t p).1.rows =
          t.rows ++ [{ id := t.nextId, timestamp := p.timestamp, name := p.name
                     , description := p.description, tags := p.tags }]) ∧
    (∀ (t : CustomDataTable) (c : CustomDataInput) (r : CustomDataRow),
      t.rows.find? (fun r2 => r2.category = c.category ∧ r2.key = c.key) = some r →
        (logCustomData t c).2 = r.id ∧
        (logCustomData t c).1.rows.map (fun r2 => r2.id) = t.rows.map (fun r2 => r2.id) ∧
        (logCustomData t c).1.rows =
          t.rows.map (fun r2 => if r2.category = c.category ∧ r2.key = c.key then
            { r2 with timestamp := c.timestamp, value := c.value }
            else r2)) ∧
    (∀ (t : CustomDataTable) (c : CustomDataInput),
      t.rows.find? (fun r2 => r2.category = c.category ∧ r2.key = c.key) = none →
        (logCustomData t c).2 = t.nextId ∧
        (logCustomData t c).1.rows =
          t.rows ++ [{ id := t.nextId, timestamp := c.timestamp, category := c.category
                     , key := c.key, value := c.value }]) ∧
    (logSystemPattern { rows := [], nextId := 1 }
        { timestamp := 100, name := "Retry Policy", description := none
        , tags := some ["resilience"] } =
      ({ rows := [{ id := 1, timestamp := 100, name := "Retry Policy"
                  , description := none, tags := some ["resilience"] }]
       , nextId := 2 }, 1)) ∧
    (logSystemPattern
        { rows := [{ id := 1, timestamp := 100, name := "Retry Policy"
                   , description := none, tags := some ["resilience"] }]
        , nextId := 2 }
        { timestamp := 200, name := "Retry Policy", description := none
        , tags := some ["resilience", "v2"] } =
      ({ rows := [{ id := 1, timestamp := 200, name := "Retry Policy"
                  , description := none, tags := some ["resilience", "v2"] }]
       , nextId := 2 }, 1)) := by
  refine ⟨?_, ?_, ?_, ?_, by rfl, by rfl⟩
  · intro t p r hfind
    unfold logSystemPattern
    rw [hfind]
    refine ⟨rfl, ?_, rfl⟩
    rw [List.map_map]
    have hids : ((fun r2 => r2.id) ∘ (fun r2 => if r2.name = p.name then
        { r2 with timestamp := p.timestamp, description := p.description, tags := p.tags }
        else r2)) = (fun r2 : SystemPatternRow => r2.id) := by
      funext r2
      by_cases h : r2.name = p.name <;> simp [h]
    rw [hids]
  · intro t p hfind
    unfold logSystemPattern
    rw [hfind]
    exact ⟨rfl, rfl⟩
  · intro t c r hfind
    unfold logCustomData
    rw [hfind]
    refine ⟨rfl, ?_, rfl⟩
    rw [List.map_map]
    have hids : ((fun r2 => r2.id) ∘ (fun r2 => if r2.category = c.category ∧ r2.key = c.key then
        { r2 with timestamp := c.timestamp, value := c.value }
        else r2)) = (fun r2 : CustomDataRow => r2.id) := by
      funext r2
      by_cases h : r2.category = c.category ∧ r2.key = c.key <;> simp [h]
    rw [hids]
  · intro t c hfind
    unfold logCustomData
    rw [hfind]
    exact ⟨rfl, rfl⟩

/-- Witness for Claim C1: the conflict branches at concrete tables. -/
theorem naturalKeyUpsertPreservesId_witness :
    (logSystemPattern
        { rows := [{ id := 1, timestamp := 100, name := "Retry Policy"
                   , description := none, tags := some ["resilience"] }]
        , nextId := 2 }
        { timestamp := 200, name := "Retry Policy", description := none
        , tags := some ["resilience", "v2"] }).2 = 1 ∧
    (logCustomData
        { rows := [{ id := 1, timestamp := 100, category := "ProjectGlossary"
                   , key := "apikey", value := JValue.jnum 7 }]
        , nextId := 2 }
        { timestamp := 200, category := "ProjectGlossary", key := "apikey"
        , value := JValue.jnum 8 }).2 = 1 :=
  ⟨(naturalKeyUpsertPreservesId.1
      { rows := [{ id := 1, timestamp := 100, name := "Retry Policy"
                 , description := none, tags := some ["resilience"] }]
      , nextId := 2 }
      { timestamp := 200, name := "Retry Policy", description := none
      , tags := some ["resilience", "v2"] }
      { id := 1, timestamp := 100, name := "Retry Policy"
      , description := none, tags := some ["resilience"] } (by rfl)).1
  , (naturalKeyUpsertPreservesId.2.2.1
      { rows := [{ id := 1, timestamp := 100, category := "ProjectGlossary"
                 , key := "apikey", value := JValue.jnum 7 }]
      , nextId := 2 }
      { timestamp := 200, category := "ProjectGlossary", key := "apikey"
      , value := JValue.jnum 8 }
      { id := 1, timestamp := 100, category := "ProjectGlossary"
      , key := "apikey", value := JValue.jnum 7 } (by rfl)).1⟩

theorem mem_insertDescBy (key : α → Nat) (x a : α) (l : List α) :
    a ∈ insertDescBy key x l ↔ a = x ∨ a ∈ l := by
  induction l with
  | nil => simp [insertDescBy]
  | cons y ys ih =>
    by_cases h : key x ≤ key y
    · simp only [insertDescBy, if_pos h, List.mem_cons, ih]
      tauto
    · simp only [insertDescBy, if_neg h, List.mem_cons]

theorem mem_sortDescBy (key : α → Nat) (a : α) (l : List α) :
    a ∈ sortDescBy key l ↔ a ∈ l := by
  induction l with
  | nil => simp [sortDescBy]
  | cons y ys ih =>
    simp only [sortDescBy, List.foldr_cons] at ih ⊢
    rw [mem_insertDescBy, ih, List.mem_cons]

theorem mem_of_applyLimit (limit : Option Int) (l : List α) (a : α)
    (h : a ∈ applyLimit limit l) : a ∈ l := by
  cases limit with
  | none => exact h
  | some n =>
    simp only [applyLimit] at h
    by_cases hn : n > 0
    · rw [if_pos hn] at h
      exact List.mem_of_mem_take h
    · rwa [if_neg hn] at h

theorem getContextLinks_subset (links : List ContextLinkRow) (cd : List CustomDataRow)
    (ws t i : String) (rf lf : Option String) (lim : Option Int) (l : ContextLinkRow)
    (h : l ∈ getContextLinks links cd ws t i rf lf lim) : l ∈ links := by
  unfold getContextLinks at h
  have h2 := mem_of_applyLimit _ _ _ h
  rw [mem_sortDescBy] at h2
  exact (List.mem_filter.mp h2).1

theorem searchItemIds_self_mem (cd : List CustomDataRow) (t i : String) :
    i ∈ searchItemIds cd t i := by
  unfold searchItemIds
  by_cases h : t = "custom_data" ∧ pyIsDigit i
  · rw [if_pos h]
    cases hf : getCustomDataById cd (pyNatOfDigits i) <;> simp
  · rw [if_neg h]
    simp

theorem mem_getContextLinks_of (links : List ContextLinkRow) (cd : List CustomDataRow)
    (ws t i : String) (l : ContextLinkRow) (j : String)
    (hmem : l ∈ links) (hws : l.workspace_id = ws)
    (hj : j ∈ searchItemIds cd t i) (hmatch : linkMatchesItem l t j = true) :
    l ∈ getContextLinks links cd ws t i none none none := by
  unfold getContextLinks
  simp only [applyLimit]
  rw [mem_sortDescBy, List.mem_filter]
  refine ⟨hmem, ?_⟩
  have hany : (searchItemIds cd t i).any (fun i2 => linkMatchesItem l t i2) = true :=
    List.any_eq_true.mpr ⟨j, hj, hmatch⟩
  simp [hany, hws, optStrFilter]

/-- Claim C5: a stored link is returned by `get_context_links` both when
queried for its source item and when queried for its target item — lookup
is undirected over the directed storage row. -/
theorem linkLookupUndirected (links : List ContextLinkRow) (cd : List CustomDataRow)
    (l : ContextLinkRow) (hmem : l ∈ links) :
    l ∈ getContextLinks links cd l.workspace_id
        l.source_item_type l.source_item_id none none none ∧
    l ∈ getContextLinks links cd l.workspace_id
        l.target_item_type l.target_item_id none none none := by
  constructor
  · exact mem_getContextLinks_of links cd _ _ _ l l.source_item_id hmem rfl
      (searchItemIds_self_mem cd _ _) (by simp [linkMatchesItem])
  · exact mem_getContextLinks_of links cd _ _ _ l l.target_item_id hmem rfl
      (searchItemIds_self_mem cd _ _) (by simp [linkMatchesItem])

/-- Witness for Claim C5 at the spec's decision-to-progress link. -/
theorem linkLookupUndirected_witness :
    ({ id := 1, timestamp := 0, workspace_id := "ws"
     , source_item_type := "decision", source_item_id := "1"
     , target_item_type := "progress_entry", target_item_id := "2"
     , relationship_type := "relates_to", description := none } : ContextLinkRow) ∈
      getContextLinks
        [{ id := 1, timestamp := 0, workspace_id := "ws"
         , source_item_type := "decision", source_item_id := "1"
         , target_item_type := "progress_entry", target_item_id := "2"
         , relationship_type := "relates_to", description := none }] []
        "ws" "decision" "1" none none none ∧
    ({ id := 1, timestamp := 0, workspace_id := "ws"
     , source_item_type := "decision", source_item_id := "1"
     , target_item_type := "progress_entry", target_item_id := "2"
     , relationship_type := "relates_to", description := none } : ContextLinkRow) ∈
      getContextLinks
        [{ id := 1, timestamp := 0, workspace_id := "ws"
         , source_item_type := "decision", source_item_id := "1"
         , target_item_type := "progress_entry", target_item_id := "2"
         , relationship_type := "relates_to", description := none }] []
        "ws" "progress_entry" "2" none none none :=
  linkLookupUndirected
    [{ id := 1, timestamp := 0, workspace_id := "ws"
     , source_item_type := "decision", source_item_id := "1"
     , target_item_type := "progress_entry", target_item_id := "2"
     , relationship_type := "relates_to", description := none }] []
    { id := 1, timestamp := 0, workspace_id := "ws"
    , source_item_type := "decision", source_item_id := "1"
    , target_item_type := "progress_entry", target_item_id := "2"
    , relationship_type := "relates_to", description := none }
    (by simp)

/-- Counterexample to Claim C6 as stated: a link stored under the numeric
surrogate id "1" of a custom_data row is NOT returned when the same row is
queried under its "category:key" form — the alternate-id probe only fires
for numeric query ids. -/
theorem customDataLinkProbe_counterexample :
    getContextLinks
      [{ id := 1, timestamp := 0, workspace_id := "ws"
       , source_item_type := "custom_data", source_item_id := "1"
       , target_item_type := "decision", target_item_id := "2"
       , relationship_type := "relates_to", description := none }]
      [{ id := 1, timestamp := 0, category := "ProjectGlossary", key := "apikey"
       , value := JValue.jnull }]
      "ws" "custom_data" "ProjectGlossary:apikey" none none none = [] := by rfl

/-- Claim C6 (amended): the probe is one-directional.  When a custom_data
item is queried by a numeric id that resolves to a row, links recorded
under that row's "category:key" form are also found (a query by the
composite form, by contrast, matches only links stored under that exact
text). -/
theorem customDataLinkProbeNumericQuery (links : List ContextLinkRow)
    (cd : List CustomDataRow) (s : String) (r : CustomDataRow) (l : ContextLinkRow)
    (hdig : pyIsDigit s = true)
    (hfound : getCustomDataById cd (pyNatOfDigits s) = some r)
    (hmem : l ∈ links)
    (hmatch : linkMatchesItem l "custom_data" (r.category ++ ":" ++ r.key) = true) :
    l ∈ getContextLinks links cd l.workspace_id "custom_data" s none none none := by
  apply mem_getContextLinks_of links cd _ _ _ l (r.category ++ ":" ++ r.key) hmem rfl ?_ hmatch
  unfold searchItemIds
  rw [if_pos ⟨rfl, hdig⟩, hfound]
  simp

/-- Witness for Claim C6 (amended): the numeric query "1" surfaces a link
stored under "ProjectGlossary:apikey". -/
theorem customDataLinkProbeNumericQuery_witness :
    ({ id := 1, timestamp := 0, workspace_id := "ws"
     , source_item_type := "custom_data", source_item_id := "ProjectGlossary:apikey"
     , target_item_type := "decision", target_item_id := "2"
     , relationship_type := "relates_to", description := none } : ContextLinkRow) ∈
      getContextLinks
        [{ id := 1, timestamp := 0, workspace_id := "ws"
         , source_item_type := "custom_data", source_item_id := "ProjectGlossary:apikey"
         , target_item_type := "decision", target_item_id := "2"
         , relationship_type := "relates_to", description := none }]
        [{ id := 1, timestamp := 0, category := "ProjectGlossary", key := "apikey"
         , value := JValue.jnull }]
        "ws" "custom_data" "1" none none none :=
  customDataLinkProbeNumericQuery
    [{ id := 1, timestamp := 0, workspace_id := "ws"
     , source_item_type := "custom_data", source_item_id := "ProjectGlossary:apikey"
     , target_item_type := "decision", target_item_id := "2"
     , relationship_type := "relates_to", description := none }]
    [{ id := 1, timestamp := 0, category := "ProjectGlossary", key := "apikey"
     , value := JValue.jnull }]
    "1"
    { id := 1, timestamp := 0, category := "ProjectGlossary", key := "apikey"
    , value := JValue.jnull }
    { id := 1, timestamp := 0, workspace_id := "ws"
    , source_item_type := "custom_data", source_item_id := "ProjectGlossary:apikey"
    , target_item_type := "decision", target_item_id := "2"
    , relationship_type := "relates_to", description := none }
    (by rfl) (by rfl) (by simp) (by rfl)

/-- Claim C9: deleting a linked entity also removes every context_links
row mentioning it as either endpoint, so a subsequent `get_context_links`
query (for any item) returns no link referencing the deleted entity. -/
theorem deleteCascadesLinkCleanup :
    (∀ (db : WorkspaceDb) (pid : Nat),
      (∃ r ∈ db.progress_entries, r.id = pid) →
        (deleteProgressEntryById db pid).2 = true ∧
        (∀ l ∈ (deleteProgressEntryById db pid).1.context_links,
          linkMatchesItem l "progress_entry" (natToText pid) = false) ∧
        (∀ (cd : List CustomDataRow) (ws t i : String) (l : ContextLinkRow),
          l ∈ getContextLinks (deleteProgressEntryById db pid).1.context_links
              cd ws t i none none none →
          linkMatchesItem l "progress_entry" (natToText pid) = false)) ∧
    (∀ (db : WorkspaceDb) (pid : Nat),
      (∃ r ∈ db.system_patterns, r.id = pid) →
        (deleteSystemPatternById db pid).2 = true ∧
        (∀ l ∈ (deleteSystemPatternById db pid).1.context_links,
          linkMatchesItem l "system_pattern" (natToText pid) = false) ∧
        (∀ (cd : List CustomDataRow) (ws t i : String) (l : ContextLinkRow),
          l ∈ getContextLinks (deleteSystemPatternById db pid).1.context_links
              cd ws t i none none none →
          linkMatchesItem l "system_pattern" (natToText pid) = false)) := by
  constructor
  · intro db pid hex
    have hany : db.progress_entries.any (fun r => r.id = pid) = true := by
      rcases hex with ⟨r, hr, hid⟩
      exact List.any_eq_true.mpr ⟨r, hr, by simp [hid]⟩
    have hdel : deleteProgressEntryById db pid =
        ({ db with
            progress_entries := (db.progress_entries.filter (fun r => ¬ r.id = pid)).map
              (fun r => if r.parent_id = some pid then { r with parent_id := none } else r)
          , context_links := db.context_links.filter
              (fun l => ¬ linkMatchesItem l "progress_entry" (natToText pid) = true) }, true) := by
      unfold deleteProgressEntryById
      rw [if_pos hany]
    have hlinks : ∀ l ∈ (deleteProgressEntryById db pid).1.context_links,
        linkMatchesItem l "progress_entry" (natToText pid) = false := by
      intro l hl
      rw [hdel] at hl
      have := (List.mem_filter.mp hl).2
      simpa using this
    refine ⟨by rw [hdel], hlinks, ?_⟩
    intro cd ws t i l hl
    exact hlinks l (getContextLinks_subset _ cd ws t i none none none l hl)
  · intro db pid hex
    have hany : db.system_patterns.any (fun r => r.id = pid) = true := by
      rcases hex with ⟨r, hr, hid⟩
      exact List.any_eq_true.mpr ⟨r, hr, by simp [hid]⟩
    have hdel : deleteSystemPatternById db pid =
        ({ db with
            system_patterns := db.system_patterns.filter (fun r => ¬ r.id = pid)
          , context_links := db.context_links.filter
              (fun l => ¬ linkMatchesItem l "system_pattern" (natToText pid) = true) }, true) := by
      unfold deleteSystemPatternById
      rw [if_pos hany]
    have hlinks : ∀ l ∈ (deleteSystemPatternById db pid).1.context_links,
        linkMatchesItem l "system_pattern" (natToText pid) = false := by
      intro l hl
      rw [hdel] at hl
      have := (List.mem_filter.mp hl).2
      simpa using this
    refine ⟨by rw [hdel], hlinks, ?_⟩
    intro cd ws t i l hl
    exact hlinks l (getContextLinks_subset _ cd ws t i none none none l hl)

/-- Witness for Claim C9: deleting progress entry 5 removes its link to
system pattern 3, and querying links for the pattern finds nothing. -/
theorem deleteCascadesLinkCleanup_witness :
    (deleteProgressEntryById
      { progress_entries := [{ id := 5, timestamp := 0, status := "TODO"
                             , description := "d", parent_id := none }]
      , system_patterns := [{ id := 3, timestamp := 0, name := "p"
                            , description := none, tags := none }]
      , context_links := [{ id := 1, timestamp := 0, workspace_id := "ws"
                          , source_item_type := "progress_entry", source_item_id := "5"
                          , target_item_type := "system_pattern", target_item_id := "3"
                          , relationship_type := "implements", description := none }]
      , custom_data := [] } 5).2 = true :=
  (deleteCascadesLinkCleanup.1
    { progress_entries := [{ id := 5, timestamp := 0, status := "TODO"
                           , description := "d", parent_id := none }]
    , system_patterns := [{ id := 3, timestamp := 0, name := "p"
                          , description := none, tags := none }]
    , context_links := [{ id := 1, timestamp := 0, workspace_id := "ws"
                        , source_item_type := "progress_entry", source_item_id := "5"
                        , target_item_type := "system_pattern", target_item_id := "3"
                        , relationship_type := "implements", description := none }]
    , custom_data := [] } 5 (by simp)).1

/-- Claim C7: a get call on a tag-bearing entity store with both non-empty
tag filters supplied fails with the validation error, uniformly in the
store contents (so before any storage access), and returns no result
list. -/
theorem tagFilterExclusivity (drows : List DecisionRow) (prows : List SystemPatternRow)
    (lim : Option Int) (allT anyT : List String)
    (h1 : allT ≠ []) (h2 : anyT ≠ []) :
    toolGetDecisions drows
        { limit := lim, tags_filter_include_all := some allT
        , tags_filter_include_any := some anyT } = .error PortalError.validationError ∧
    toolGetSystemPatterns prows
        { tags_filter_include_all := some allT
        , tags_filter_include_any := some anyT } = .error PortalError.validationError ∧
    validateTagFilterExclusivity (some allT) (some anyT) = .error PortalError.validationError := by
  have htr1 : optListTruthy (some allT) = true := by
    cases allT with
    | nil => exact absurd rfl h1
    | cons a as => rfl
  have htr2 : optListTruthy (some anyT) = true := by
    cases anyT with
    | nil => exact absurd rfl h2
    | cons a as => rfl
  have hval : validateTagFilterExclusivity (some allT) (some anyT) =
      .error PortalError.validationError := by
    unfold validateTagFilterExclusivity
    rw [htr1, htr2]
    rfl
  refine ⟨?_, ?_, hval⟩
  · unfold toolGetDecisions
    rw [hval]
  · unfold toolGetSystemPatterns
    rw [hval]

/-- Witness for Claim C7 at concrete filters. -/
theorem tagFilterExclusivity_witness :
    toolGetDecisions []
        { limit := none, tags_filter_include_all := some ["a"]
        , tags_filter_include_any := some ["b"] } = .error PortalError.validationError ∧
    toolGetSystemPatterns []
        { tags_filter_include_all := some ["a"]
        , tags_filter_include_any := some ["b"] } = .error PortalError.validationError :=
  ⟨(tagFilterExclusivity [] [] none ["a"] ["b"] (by simp) (by simp)).1
  , (tagFilterExclusivity [] [] none ["a"] ["b"] (by simp) (by simp)).2.1⟩

/-- Claim C10: in `get_decisions` the row limit is applied in SQL
(newest first) before the tag filters run in Python: the result is exactly
the tag-filtered subset of the `N` most recent rows, so a matching but
older decision is dropped and fewer than `N` matches can be returned even
when more matching rows exist. -/
theorem limitAppliedBeforeTagFilter :
    (∀ (rows : List DecisionRow) (n : Int)
       (allT anyT : Option (List String)) (d : DecisionRow),
      d ∈ getDecisions rows (some n) allT anyT ↔
        (d ∈ applyLimit (some n) (sortDescBy (fun r => r.timestamp) rows) ∧
         (match allT with
          | some (t :: ts) => containsAllTags d.tags (t :: ts) = true
          | _ => True) ∧
         (match anyT with
          | some (t :: ts) => containsAnyTags d.tags (t :: ts) = true
          | _ => True))) ∧
    getDecisions
      [{ id := 1, timestamp := 30, summary := "s1", rationale := none
       , implementation_details := none, tags := none }
      , { id := 2, timestamp := 20, summary := "s2", rationale := none
        , implementation_details := none, tags := none }
      , { id := 3, timestamp := 10, summary := "s3", rationale := none
        , implementation_details := none, tags := some ["x"] }]
      (some 2) none (some ["x"]) = [] ∧
    getDecisions
      [{ id := 1, timestamp := 30, summary := "s1", rationale := none
       , implementation_details := none, tags := none }
      , { id := 2, timestamp := 20, summary := "s2", rationale := none
        , implementation_details := none, tags := none }
      , { id := 3, timestamp := 10, summary := "s3", rationale := none
        , implementation_details := none, tags := some ["x"] }]
      none none (some ["x"]) =
      [{ id := 3, timestamp := 10, summary := "s3", rationale := none
       , implementation_details := none, tags := some ["x"] }] := by
  refine ⟨?_, by rfl, by rfl⟩
  intro rows n allT anyT d
  cases hall : allT with
  | none =>
    cases hany : anyT with
    | none => simp [getDecisions]
    | some l2 =>
      cases l2 with
      | nil => simp [getDecisions]
      | cons t ts => simp [getDecisions, List.mem_filter]
  | some l1 =>
    cases l1 with
    | nil =>
      cases hany : anyT with
      | none => simp [getDecisions]
      | some l2 =>
        cases l2 with
        | nil => simp [getDecisions]
        | cons t ts => simp [getDecisions, List.mem_filter]
    | cons t ts =>
      cases hany : anyT with
      | none => simp [getDecisions, List.mem_filter]
      | some l2 =>
        cases l2 with
        | nil => simp [getDecisions, List.mem_filter]
        | cons t2 ts2 => simp only [getDecisions, List.mem_filter, and_assoc]

theorem processReferences_of_distinct (db : ReportsDb) (refs : List ItemReference) :
    ∀ (seen : List (String × String)),
      List.Pairwise (fun r1 r2 => refKey r1 ≠ refKey r2) refs →
      (∀ r ∈ refs, ¬ refKey r ∈ seen) →
      processReferences db refs seen = refs.map (mkItemResult db) := by
  induction refs with
  | nil => intro seen _ _; rfl
  | cons r rest ih =>
    intro seen hpw hseen
    have hr : ¬ refKey r ∈ seen := hseen r (by simp)
    unfold processReferences
    rw [if_neg hr]
    rw [ih (refKey r :: seen) (List.pairwise_cons.mp hpw).2 ?_]
    · rfl
    · intro r2 hr2
      simp only [List.mem_cons]
      rintro (hk | hk)
      · exact (List.pairwise_cons.mp hpw).1 r2 hr2 hk.symm
      · exact hseen r2 (by simp [hr2]) hk

/-- Claim C8: `get_items_by_references` rejects both-or-neither input
modes with a caller error; otherwise it never raises, resolving each
reference independently — with distinct keys the result is exactly one
entry per reference, a found reference giving success with the payload, a
missing or failing one giving a per-item failure entry with an error
message. -/
theorem batchReferenceResolution :
    (∀ (db : ReportsDb), getItemsByReferences db none none =
      .error "Provide either references or linked_items_result, not both or neither") ∧
    (∀ (db : ReportsDb) (refs : List ItemReference) (links : List ContextLinkRow),
      getItemsByReferences db (some refs) (some links) =
        .error "Provide either references or linked_items_result, not both or neither") ∧
    (∀ (db : ReportsDb) (refs : List ItemReference),
      getItemsByReferences db (some refs) none = .ok (processReferences db refs [])) ∧
    (∀ (db : ReportsDb) (links : List ContextLinkRow),
      getItemsByReferences db none (some links) =
        .ok (processReferences db (extractReferencesFromLinks links) [])) ∧
    (∀ (db : ReportsDb) (refs : List ItemReference),
      List.Pairwise (fun r1 r2 => refKey r1 ≠ refKey r2) refs →
      processReferences db refs [] = refs.map (mkItemResult db)) ∧
    (∀ (db : ReportsDb) (r : ItemReference),
      (mkItemResult db r).reference = r ∧
      (∀ payload, retrieveSingleItem db r.type r.id = .ok (some payload) →
        mkItemResult db r =
          { reference := r, success := true, item := some payload, error := none }) ∧
      (retrieveSingleItem db r.type r.id = .ok none →
        mkItemResult db r =
          { reference := r, success := false, item := none
          , error := some (formatNotFoundError r.type r.id) }) ∧
      (∀ e, retrieveSingleItem db r.type r.id = .error e →
        mkItemResult db r =
          { reference := r, success := false, item := none
          , error := some ("Database error retrieving " ++ r.type ++ " ID " ++ r.id ++ ": " ++ e) })) := by
  refine ⟨?_, ?_, ?_, ?_, ?_, ?_⟩
  · intro db
    rfl
  · intro db refs links
    rfl
  · intro db refs
    rfl
  · intro db links
    rfl
  · intro db refs hpw
    exact processReferences_of_distinct db refs [] hpw (by simp)
  · intro db r
    refine ⟨?_, ?_, ?_, ?_⟩
    · cases hres : retrieveSingleItem db r.type r.id with
      | ok o => cases o <;> simp [mkItemResult, hres]
      | error e => simp [mkItemResult, hres]
    · intro payload hres
      simp [mkItemResult, hres]
    · intro hres
      simp [mkItemResult, hres]
    · intro e hres
      simp [mkItemResult, hres]

/-- Witness for Claim C8: one resolvable and one nonexistent decision
reference give two per-item results and the call does not raise. -/
theorem batchReferenceResolution_witness :
    getItemsByReferences
      { decisions := [{ id := 1, timestamp := 0, summary := "use sqlite"
                      , rationale := none, implementation_details := none, tags := none }]
      , progress_entries := [], system_patterns := [], custom_data := []
      , product_context := none, active_context := none }
      (some [{ type := "decision", id := "1" }, { type := "decision", id := "999" }]) none =
      .ok (processReferences
        { decisions := [{ id := 1, timestamp := 0, summary := "use sqlite"
                        , rationale := none, implementation_details := none, tags := none }]
        , progress_entries := [], system_patterns := [], custom_data := []
        , product_context := none, active_context := none }
        [{ type := "decision", id := "1" }, { type := "decision", id := "999" }] []) ∧
    processReferences
      { decisions := [{ id := 1, timestamp := 0, summary := "use sqlite"
                      , rationale := none, implementation_details := none, tags := none }]
      , progress_entries := [], system_patterns := [], custom_data := []
      , product_context := none, active_context := none }
      [{ type := "decision", id := "1" }, { type := "decision", id := "999" }] [] =
      [mkItemResult
        { decisions := [{ id := 1, timestamp := 0, summary := "use sqlite"
                        , rationale := none, implementation_details := none, tags := none }]
        , progress_entries := [], system_patterns := [], custom_data := []
        , product_context := none, active_context := none }
        { type := "decision", id := "1" }
      , mkItemResult
        { decisions := [{ id := 1, timestamp := 0, summary := "use sqlite"
                        , rationale := none, implementation_details := none, tags := none }]
        , progress_entries := [], system_patterns := [], custom_data := []
        , product_context := none, active_context := none }
        { type := "decision", id := "999" }] :=
  ⟨batchReferenceResolution.2.2.1
    { decisions := [{ id := 1, timestamp := 0, summary := "use sqlite"
                    , rationale := none, implementation_details := none, tags := none }]
    , progress_entries := [], system_patterns := [], custom_data := []
    , product_context := none, active_context := none }
    [{ type := "decision", id := "1" }, { type := "decision", id := "999" }]
  , batchReferenceResolution.2.2.2.2.1
    { decisions := [{ id := 1, timestamp := 0, summary := "use sqlite"
                    , rationale := none, implementation_details := none, tags := none }]
    , progress_entries := [], system_patterns := [], custom_data := []
    , product_context := none, active_context := none }
    [{ type := "decision", id := "1" }, { type := "decision", id := "999" }]
    (by decide)⟩
